import Mathlib

/-!
Verification of the calendrical/astronomical core of the bazi-fortune-telling
repository, shallowly embedded in Lean 4.

Sources embedded here:
- src/lib/bazi-calculator.ts          (the "simple" implementation)
- src/lib/complete-bazi-calculator.ts (the "complete" implementation)
- src/lib/astronomical-time.ts        (true-solar-time corrector)
- src/lib/timezone-calculator.ts      (longitude-offset helper)

Conventions of the embedding:
- Heavenly stems are indices `Fin 10` in the order of the source array
  HEAVENLY_STEMS / tianGan: 0 甲, 1 乙, 2 丙, 3 丁, 4 戊, 5 己, 6 庚, 7 辛, 8 壬, 9 癸.
- Earthly branches are indices `Fin 12` in the order of EARTHLY_BRANCHES / diZhi:
  0 子, 1 丑, 2 寅, 3 卯, 4 辰, 5 巳, 6 午, 7 未, 8 申, 9 酉, 10 戌, 11 亥.
- JavaScript's `%` on integers truncates toward zero (the result carries the
  sign of the dividend); this is `jsMod` below.  JavaScript's `Math.floor`
  on an exact rational is `ratFloor`.
- Fractional weights (0.5 per hidden stem) and degree/minute arithmetic are
  carried in `ℚ`; on the half-integer and decimal values appearing in the
  source this coincides exactly with the source's floating-point arithmetic.
-/

namespace Bazi

/-- JavaScript `%` on integers: truncated remainder, sign of the dividend
(JS `-0` behaves as `0`, which this definition also returns). -/
def jsMod (a b : ℤ) : ℤ := if a < 0 then -((-a) % b) else a % b

/-- JavaScript `Math.floor` on an exact rational value. -/
def ratFloor (q : ℚ) : ℤ := ⌊q⌋

/-- Truncation toward zero of a rational, as JS float-to-int truncation
inside the float remainder `a % b`. -/
def ratTrunc (q : ℚ) : ℤ := if q < 0 then ⌈q⌉ else ⌊q⌋

/-- JavaScript `%` on (exact) numbers: `a - b * trunc(a / b)`. -/
def jsFmod (a b : ℚ) : ℚ := a - b * (ratTrunc (a / b) : ℚ)

/-- The five elements (五行): wood, fire, earth, metal, water. -/
inductive Element where
  | wood | fire | earth | metal | water
deriving DecidableEq, Repr

/-- STEM_ELEMENTS of bazi-calculator.ts (equally the stem half of `wuXing`
in complete-bazi-calculator.ts): 甲乙→木, 丙丁→火, 戊己→土, 庚辛→金, 壬癸→水. -/
def stemElement : Fin 10 → Element
  | 0 => .wood  | 1 => .wood
  | 2 => .fire  | 3 => .fire
  | 4 => .earth | 5 => .earth
  | 6 => .metal | 7 => .metal
  | 8 => .water | 9 => .water

/-- BRANCH_ELEMENTS of bazi-calculator.ts (the branch half of `wuXing`):
子→水, 丑→土, 寅→木, 卯→木, 辰→土, 巳→火, 午→火, 未→土, 申→金, 酉→金, 戌→土, 亥→水. -/
def branchElement : Fin 12 → Element
  | 0 => .water | 1 => .earth | 2 => .wood  | 3 => .wood
  | 4 => .earth | 5 => .fire  | 6 => .fire  | 7 => .earth
  | 8 => .metal | 9 => .metal | 10 => .earth | 11 => .water

/-- HIDDEN_STEMS of bazi-calculator.ts: the 1-3 hidden stems of each branch,
in source order.  子[癸], 丑[己癸辛], 寅[甲丙戊], 卯[乙], 辰[戊乙癸], 巳[丙戊庚],
午[丁己], 未[己丁乙], 申[庚戊壬], 酉[辛], 戌[戊辛丁], 亥[壬甲]. -/
def hiddenStems : Fin 12 → List (Fin 10)
  | 0 => [9]
  | 1 => [5, 9, 7]
  | 2 => [0, 2, 4]
  | 3 => [1]
  | 4 => [4, 1, 9]
  | 5 => [2, 4, 6]
  | 6 => [3, 5]
  | 7 => [5, 3, 1]
  | 8 => [6, 4, 8]
  | 9 => [7]
  | 10 => [4, 7, 3]
  | 11 => [8, 0]

/-- A pillar: a stem/branch pair, both given by their table index. -/
structure Pillar where
  stem : Fin 10
  branch : Fin 12
deriving DecidableEq, Repr

/-- The five-bucket element histogram of bazi-calculator.ts
(`const elements = { wood: 0, fire: 0, earth: 0, metal: 0, water: 0 }`). -/
structure FiveElements where
  wood : ℚ
  fire : ℚ
  earth : ℚ
  metal : ℚ
  water : ℚ
deriving DecidableEq, Repr

def zeroElements : FiveElements := ⟨0, 0, 0, 0, 0⟩

/-- One `elements.<bucket> += w` step of calculateFiveElements, dispatched on
the element exactly as the source's if/else-if chain is. -/
def bump (acc : FiveElements) (e : Element) (w : ℚ) : FiveElements :=
  match e with
  | .wood  => { acc with wood := acc.wood + w }
  | .fire  => { acc with fire := acc.fire + w }
  | .earth => { acc with earth := acc.earth + w }
  | .metal => { acc with metal := acc.metal + w }
  | .water => { acc with water := acc.water + w }

/-- The per-pillar body of calculateFiveElements (bazi-calculator.ts lines
159-186): +1 for the stem's element, +1 for the branch's element, +0.5 for
each hidden stem's element. -/
def addPillar (acc : FiveElements) (p : Pillar) : FiveElements :=
  (hiddenStems p.branch).foldl (fun a s => bump a (stemElement s) (1/2))
    (bump (bump acc (stemElement p.stem) 1) (branchElement p.branch) 1)

/-- calculateFiveElements of bazi-calculator.ts: fold the pillar list over a
zero histogram (`pillars.forEach(...)`). -/
def calculateFiveElements (pillars : List Pillar) : FiveElements :=
  pillars.foldl addPillar zeroElements

/-- The total weight of a histogram: the sum of the five buckets. -/
def sumElements (f : FiveElements) : ℚ :=
  f.wood + f.fire + f.earth + f.metal + f.water

theorem sum_bump (acc : FiveElements) (e : Element) (w : ℚ) :
    sumElements (bump acc e w) = sumElements acc + w := by
  cases e <;> simp [bump, sumElements] <;> ring

theorem sum_hidden_fold (l : List (Fin 10)) (acc : FiveElements) :
    sumElements (l.foldl (fun a s => bump a (stemElement s) (1/2)) acc)
      = sumElements acc + l.length * (1/2) := by
  induction l generalizing acc with
  | nil => simp
  | cons s t ih =>
      simp only [List.foldl_cons, List.length_cons, ih, sum_bump]
      push_cast
      ring

theorem sum_addPillar (acc : FiveElements) (p : Pillar) :
    sumElements (addPillar acc p)
      = sumElements acc + 2 + ((hiddenStems p.branch).length : ℚ) / 2 := by
  simp only [addPillar, sum_hidden_fold, sum_bump]
  ring

/-- Out-of-range array indexing: `HEAVENLY_STEMS[i]` is a defined stem symbol
only for `0 ≤ i < 10`; any other index yields JavaScript `undefined`. -/
def stemAt (i : ℤ) : Option (Fin 10) :=
  if h : 0 ≤ i ∧ i < 10 then some ⟨i.toNat, by omega⟩ else none

/-- Out-of-range array indexing for `EARTHLY_BRANCHES[i]`. -/
def branchAt (i : ℤ) : Option (Fin 12) :=
  if h : 0 ≤ i ∧ i < 12 then some ⟨i.toNat, by omega⟩ else none

/-- The `if (index < 0) index + 10` normalization step of
complete-bazi-calculator.ts (finalGan). -/
def normalize10 (i : ℤ) : ℤ := if i < 0 then i + 10 else i

/-- The `if (index < 0) index + 12` normalization step of
complete-bazi-calculator.ts (finalZhi). -/
def normalize12 (i : ℤ) : ℤ := if i < 0 then i + 12 else i

theorem jsMod_bounds (a b : ℤ) (hb : 0 < b) : -b < jsMod a b ∧ jsMod a b < b := by
  unfold jsMod
  have hb' : b ≠ 0 := by omega
  split
  · have h1 := Int.emod_nonneg (-a) hb'
    have h2 := Int.emod_lt_of_pos (-a) hb
    omega
  · have h1 := Int.emod_nonneg a hb'
    have h2 := Int.emod_lt_of_pos a hb
    omega

/-! ## Year pillar -/

/-- calculateYearPillar of bazi-calculator.ts: offset from the base year 1984
(甲子年) with JavaScript truncated `%`; returns the raw (possibly negative)
`(stemIndex, branchIndex)` pair used to index the symbol arrays. -/
def simpleYearPillarIdx (year : ℤ) : ℤ × ℤ :=
  (jsMod (jsMod (year - 1984) 60) 10, jsMod (jsMod (year - 1984) 60) 12)

/-- The sexagenary-year attribution of
CompleteBaZiCalculator.calculateYearPillar: January, and February before the
4th, belong to the previous year (`if (month === 1 || (month === 2 && day < 4))
ganZhiYear = year - 1`). -/
def ganZhiYear (year month day : ℤ) : ℤ :=
  if month = 1 ∨ (month = 2 ∧ day < 4) then year - 1 else year

/-- CompleteBaZiCalculator.calculateYearPillar: offset of the attributed
sexagenary year from year 4 CE (甲子), truncated `%`, then the explicit
negative-index normalization; returns `(finalGan, finalZhi)`. -/
def completeYearPillarIdx (year month day : ℤ) : ℤ × ℤ :=
  (normalize10 (jsMod (ganZhiYear year month day - 4) 10),
   normalize12 (jsMod (ganZhiYear year month day - 4) 12))

/-! ## Month pillar -/

/-- The `monthBranchIndex = (month + 1) % 12` of calculateMonthPillar in
bazi-calculator.ts — a generic mod-12 computation. -/
def simpleMonthBranchIdx (month : ℤ) : ℤ := jsMod (month + 1) 12

/-- The `monthMapping` literal of CompleteBaZiCalculator.calculateMonthPillar
(months 3-12; absent keys are JavaScript `undefined`).  Note the explicit
`12: { zhi: 子, index: 0 }` entry. -/
def monthMapping (month : ℤ) : Option ℤ :=
  if month = 3 then some 3
  else if month = 4 then some 4
  else if month = 5 then some 5
  else if month = 6 then some 6
  else if month = 7 then some 7
  else if month = 8 then some 8
  else if month = 9 then some 9
  else if month = 10 then some 10
  else if month = 11 then some 11
  else if month = 12 then some 0
  else none

/-- The month-branch index chosen by
CompleteBaZiCalculator.calculateMonthPillar: month 1 → 丑 (index 1), month 2 →
丑 before the 4th and 寅 (index 2) from the 4th, months 3-12 from
`monthMapping`. -/
def completeMonthZhiIdx (month day : ℤ) : Option ℤ :=
  if month = 1 then some 1
  else if month = 2 then some (if day < 4 then 1 else 2)
  else monthMapping month

/-! ## Day pillar -/

/-- Day number of a proleptic-Gregorian civil date (days since the civil
epoch 1970-01-01, negative before it).  `Math.floor((target - base) / 86400000)`
on two local-midnight `Date`s equals the difference of these day numbers. -/
def daysFromCivil (y m d : ℤ) : ℤ :=
  let y' : ℤ := if m ≤ 2 then y - 1 else y
  let era : ℤ := Int.fdiv y' 400
  let yoe : ℤ := y' - era * 400
  let mp : ℤ := (m + 9) % 12
  let doy : ℤ := (153 * mp + 2) / 5 + d - 1
  let doe : ℤ := yoe * 365 + yoe / 4 - yoe / 100 + doy
  era * 146097 + doe - 719468

/-- calculateDayPillar of bazi-calculator.ts: days since the base date
1900-01-31 (documented there as a 庚子 day), `offset = (daysDiff + 36) % 60`
(36 being the adjustment constant), then `% 10` / `% 12`; raw indices. -/
def simpleDayPillarIdx (y m d : ℤ) : ℤ × ℤ :=
  (jsMod (jsMod (daysFromCivil y m d - daysFromCivil 1900 1 31 + 36) 60) 10,
   jsMod (jsMod (daysFromCivil y m d - daysFromCivil 1900 1 31 + 36) 60) 12)

/-- CompleteBaZiCalculator.calculateDayPillar: days since the base date
1900-01-01 (documented there as 庚子: `baseGan = 6`, `baseZhi = 0`), the
empirical correction `correctedDays = daysDiff - 12`, truncated `%`, then the
negative-index normalization; returns `(finalGan, finalZhi)`. -/
def completeDayPillarIdx (y m d : ℤ) : ℤ × ℤ :=
  (normalize10 (jsMod (6 + (daysFromCivil y m d - daysFromCivil 1900 1 1 - 12)) 10),
   normalize12 (jsMod (0 + (daysFromCivil y m d - daysFromCivil 1900 1 1 - 12)) 12))

/-! ## Hour pillar -/

/-- The `timeToHour` table of complete-bazi-calculator.ts as
(start, end, branch index) triples, in source order. -/
def timeToHour : List (ℤ × ℤ × ℤ) :=
  [(23, 1, 0), (1, 3, 1), (3, 5, 2), (5, 7, 3), (7, 9, 4), (9, 11, 5),
   (11, 13, 6), (13, 15, 7), (15, 17, 8), (17, 19, 9), (19, 21, 10), (21, 23, 11)]

/-- The hour-to-branch resolution of
CompleteBaZiCalculator.calculateHourPillar: `hour >= 23 || hour < 1` is forced
to 子 (index 0); otherwise the first table slot with
`hour >= start && hour < end`; no match models the thrown 无法确定时辰 error. -/
def completeHourZhiIdx (hour : ℤ) : Option ℤ :=
  if hour ≥ 23 ∨ hour < 1 then some 0
  else ((timeToHour.find? (fun s => s.1 ≤ hour ∧ hour < s.2.1)).map (·.2.2))

/-- The `dayGanToHourGan` table of complete-bazi-calculator.ts
(甲己→0, 乙庚→2, 丙辛→4, 丁壬→6, 戊癸→8), by stem index. -/
def dayGanToHourGan : Fin 10 → ℤ
  | 0 => 0 | 1 => 2 | 2 => 4 | 3 => 6 | 4 => 8
  | 5 => 0 | 6 => 2 | 7 => 4 | 8 => 6 | 9 => 8

/-- CompleteBaZiCalculator.calculateHourPillar, as a function of the day-stem
index and the (integer) hour; the minute argument of the source is never read.
Returns `(hourGanIndex, hourZhiIndex)` or the error. -/
def completeHourPillarIdx (dayStem : Fin 10) (hour : ℤ) : Option (ℤ × ℤ) :=
  (completeHourZhiIdx hour).map fun z => (jsMod (dayGanToHourGan dayStem + z) 10, z)

/-- calculateHourPillar of bazi-calculator.ts:
`hourBranchIndex = floor((hour + 1) / 2) % 12`,
`hourStemStart = (dayStemIndex * 2 + 2) % 10`,
`hourStemIndex = (hourStemStart + floor((hour + 1) / 2)) % 10`.
Note the stem advance is NOT reduced mod 12 first. -/
def simpleHourPillarIdx (dayStem : Fin 10) (hour : ℤ) : ℤ × ℤ :=
  (jsMod (jsMod ((dayStem : ℤ) * 2 + 2) 10 + Int.fdiv (hour + 1) 2) 10,
   jsMod (Int.fdiv (hour + 1) 2) 12)

/-! ## Ten-gods classification -/

/-- The ten relationship categories (十神). -/
inductive God where
  | biJian     -- 比肩
  | jieCai     -- 劫财
  | shiShen    -- 食神
  | shangGuan  -- 伤官
  | pianCai    -- 偏财
  | zhengCai   -- 正财
  | qiSha      -- 七杀
  | zhengGuan  -- 正官
  | pianYin    -- 偏印
  | zhengYin   -- 正印
deriving DecidableEq, Repr

/-- The TEN_GODS table of bazi-calculator.ts, row = day-master stem, column =
the classified stem, transcribed entry by entry in source order. -/
def tenGodsRows : List (List God) :=
  [[.biJian, .jieCai, .shiShen, .shangGuan, .pianCai, .zhengCai, .qiSha, .zhengGuan, .pianYin, .zhengYin],
   [.jieCai, .biJian, .shangGuan, .shiShen, .zhengCai, .pianCai, .zhengGuan, .qiSha, .zhengYin, .pianYin],
   [.pianYin, .zhengYin, .biJian, .jieCai, .shiShen, .shangGuan, .pianCai, .zhengCai, .qiSha, .zhengGuan],
   [.zhengYin, .pianYin, .jieCai, .biJian, .shangGuan, .shiShen, .zhengCai, .pianCai, .zhengGuan, .qiSha],
   [.qiSha, .zhengGuan, .pianYin, .zhengYin, .biJian, .jieCai, .shiShen, .shangGuan, .pianCai, .zhengCai],
   [.zhengGuan, .qiSha, .zhengYin, .pianYin, .jieCai, .biJian, .shangGuan, .shiShen, .zhengCai, .pianCai],
   [.pianCai, .zhengCai, .qiSha, .zhengGuan, .pianYin, .zhengYin, .biJian, .jieCai, .shiShen, .shangGuan],
   [.zhengCai, .pianCai, .zhengGuan, .qiSha, .zhengYin, .pianYin, .jieCai, .biJian, .shangGuan, .shiShen],
   [.shiShen, .shangGuan, .pianCai, .zhengCai, .qiSha, .zhengGuan, .pianYin, .zhengYin, .biJian, .jieCai],
   [.shangGuan, .shiShen, .zhengCai, .pianCai, .zhengGuan, .qiSha, .zhengYin, .pianYin, .jieCai, .biJian]]

/-- TEN_GODS as a total table on stem indices (the default is never reached:
every row has length 10). -/
def tenGodsTable (dayMaster s : Fin 10) : God :=
  ((tenGodsRows.getD dayMaster.val []).getD s.val .biJian)

/-- A character appearing in a pillar: either one of the 10 stem characters or
one of the 12 branch characters (the two vocabularies are disjoint). -/
inductive Chr where
  | stem (s : Fin 10)
  | branch (b : Fin 12)
deriving DecidableEq, Repr

/-- The property lookup `TEN_GODS[dayMaster][c]` performed by calculateTenGods
in bazi-calculator.ts: the row object is keyed by the 10 stem characters only,
so a branch character hits no key and yields JavaScript `undefined`. -/
def tenGodsLookup (dayMaster : Fin 10) (c : Chr) : Option God :=
  match c with
  | .stem s => some (tenGodsTable dayMaster s)
  | .branch _ => none

/-- The characters of one pillar classified by calculateTenGods, in push
order: the pillar's stem, then its branch, then the branch's hidden stems. -/
def classifyPillarChars (dayMaster : Fin 10) (p : Pillar) : List (Option God) :=
  tenGodsLookup dayMaster (.stem p.stem)
    :: tenGodsLookup dayMaster (.branch p.branch)
    :: (hiddenStems p.branch).map (fun s => tenGodsLookup dayMaster (.stem s))

/-! ## True-solar-time corrector -/

/-- The standard-meridian computation of
AstronomicalTimeCalculator.calculateTrueSolarTime:
`standardLongitude = (location.timezone - 8) * 15`. -/
def astroStandardLongitude (timezone : ℚ) : ℚ := (timezone - 8) * 15

/-- The longitude correction of the same function:
`longitudeCorrection = (location.longitude - standardLongitude) * 4` minutes. -/
def astroLongitudeCorrection (longitude timezone : ℚ) : ℚ :=
  (longitude - astroStandardLongitude timezone) * 4

/-- Modelled from the spec: the longitude offset component the spec
prescribes, `(location.longitude - standardMeridian) * 4` minutes with
`standardMeridian = utcOffsetHours * 15`; stated for comparison with the
source's `astroLongitudeCorrection`. -/
def specLongitudeOffset (longitude utcOffsetHours : ℚ) : ℚ :=
  (longitude - utcOffsetHours * 15) * 4

/-- calculateLongitudeOffset of timezone-calculator.ts:
`(longitude - 120) * 4 * 60 * 1000` milliseconds (120°E hard-coded as the
China standard meridian, i.e. 8 hours × 15°). -/
def tzcalcLongitudeOffset (longitude : ℚ) : ℚ := (longitude - 120) * 4 * 60 * 1000

/-- The date-time record returned by calculateTrueSolarTime (the fields the
day-rollover step writes). -/
structure TrueSolarDate where
  year : ℤ
  month : ℤ
  day : ℤ
  hour : ℤ
  minute : ℤ
  second : ℤ
deriving DecidableEq, Repr

/-- Lines 164-180 of astronomical-time.ts: apply a total correction (in
minutes) to the input civil time and perform the source's day-boundary
handling, which only increments or decrements `trueDay` — it never carries
into the month or year.  The total correction (equation of time plus
longitude correction) is taken as a parameter because its equation-of-time
part is floating-point trigonometry; the rollover logic under scrutiny is
exact. -/
def applyTotalCorrection (year month day hour minute : ℤ) (totalCorrection : ℚ) :
    TrueSolarDate :=
  let totalMinutes : ℚ := (hour : ℚ) * 60 + (minute : ℚ) + totalCorrection
  let trueHour : ℤ := ratFloor (totalMinutes / 60)
  let trueMinute : ℤ := ratFloor (jsFmod totalMinutes 60)
  let trueSecond : ℤ := ratFloor (jsFmod totalMinutes 1 * 60)
  if trueHour ≥ 24 then ⟨year, month, day + 1, trueHour - 24, trueMinute, trueSecond⟩
  else if trueHour < 0 then ⟨year, month, day - 1, trueHour + 24, trueMinute, trueSecond⟩
  else ⟨year, month, day, trueHour, trueMinute, trueSecond⟩

/-! ## Birth-info validation -/

/-- The fields of BirthInfo that validateBirthInfo inspects.  The source reads
only `birthDate.getFullYear()` from the date, so the date is modelled by its
presence and its year; `gender` and `calendarType` are modelled as raw strings
whose JavaScript-falsiness check is the empty-string test. -/
structure BirthInfo where
  birthDate : Option ℤ
  birthTime : String
  gender : String
  calendarType : String

/-- Character-code test for the regex class [0-9] (code points 48-57). -/
def isDigitCode (n : ℕ) : Bool := 48 ≤ n && n ≤ 57

/-- The regex `^([01]?[0-9]|2[0-3]):[0-5][0-9]$` of validateBirthInfo, matched
against the string's character codes (':' is 58, '0'-'5' are 48-53,
'2' is 50, '3' is 51). -/
def timeRegexTest (l : List ℕ) : Bool :=
  match l with
  | [h, colon, m1, m2] =>
      isDigitCode h && colon == 58 && (48 ≤ m1 && m1 ≤ 53) && isDigitCode m2
  | [h1, h2, colon, m1, m2] =>
      (((h1 == 48 || h1 == 49) && isDigitCode h2)
        || (h1 == 50 && (48 ≤ h2 && h2 ≤ 51)))
        && colon == 58 && (48 ≤ m1 && m1 ≤ 53) && isDigitCode m2
  | _ => false

/-- `regex.test(birthTime)` on a string. -/
def regexTest (s : String) : Bool := timeRegexTest (s.toList.map Char.toNat)

/-- A value-level reading of "the 24-hour HH:MM pattern, hours 00-23 and
minutes 00-59": the string is one or two digit characters whose value is at
most 23, a colon, and two digit characters whose value is at most 59.  Stated
independently of the source's regex, to characterize it. -/
def claimTimeOk (l : List ℕ) : Bool :=
  match l with
  | [h, colon, m1, m2] =>
      isDigitCode h && colon == 58 && isDigitCode m1 && isDigitCode m2
        && decide (10 * (m1 - 48) + (m2 - 48) ≤ 59)
  | [h1, h2, colon, m1, m2] =>
      isDigitCode h1 && isDigitCode h2 && colon == 58
        && isDigitCode m1 && isDigitCode m2
        && decide (10 * (h1 - 48) + (h2 - 48) ≤ 23)
        && decide (10 * (m1 - 48) + (m2 - 48) ≤ 59)
  | _ => false

/-- validateBirthInfo of bazi-calculator.ts: the five checks in source order,
each contributing its error message, and `valid: errors.length === 0`. -/
def validateBirthInfo (b : BirthInfo) : Bool × List String :=
  let e1 := if b.birthDate.isNone then ["请选择出生日期"] else []
  let e2 := if b.birthTime = "" ∨ regexTest b.birthTime = false
            then ["请输入有效的时间格式HH:MM"] else []
  let e3 := if b.gender = "" then ["请选择性别"] else []
  let e4 := if b.calendarType = "" then ["请选择历法类型"] else []
  let e5 := match b.birthDate with
            | some y => if y < 1900 ∨ y > 2100 then ["请选择1900年至2100年之间的日期"] else []
            | none => []
  let errors := e1 ++ e2 ++ e3 ++ e4 ++ e5
  (errors.isEmpty, errors)

/-- The number of failed checks among the five performed by
validateBirthInfo (the year-range check runs only when a date is present). -/
def failedCheckCount (b : BirthInfo) : ℕ :=
  (if b.birthDate.isNone then 1 else 0)
    + (if b.birthTime = "" ∨ regexTest b.birthTime = false then 1 else 0)
    + (if b.gender = "" then 1 else 0)
    + (if b.calendarType = "" then 1 else 0)
    + (match b.birthDate with
       | some y => if y < 1900 ∨ y > 2100 then 1 else 0
       | none => 0)

/-! ## Supporting lemmas -/

theorem timeRegexTest_iff_claimTimeOk (l : List ℕ) :
    timeRegexTest l = true ↔ claimTimeOk l = true := by
  rcases l with _ | ⟨a, _ | ⟨b, _ | ⟨c, _ | ⟨d, _ | ⟨e, _ | rest⟩⟩⟩⟩⟩ <;>
    simp [timeRegexTest, claimTimeOk, isDigitCode] <;> omega

theorem regexTest_iff_claimTimeOk (s : String) :
    regexTest s = true ↔ claimTimeOk (s.toList.map Char.toNat) = true :=
  timeRegexTest_iff_claimTimeOk _

theorem validateBirthInfo_fst (b : BirthInfo) :
    (validateBirthInfo b).1 = (validateBirthInfo b).2.isEmpty := rfl

theorem validate_valid_iff (b : BirthInfo) :
    (validateBirthInfo b).1 = true ↔
      ((∃ y, b.birthDate = some y ∧ 1900 ≤ y ∧ y ≤ 2100)
        ∧ regexTest b.birthTime = true
        ∧ b.gender ≠ "" ∧ b.calendarType ≠ "") := by
  obtain ⟨od, t, g, c⟩ := b
  cases od with
  | none =>
      simp [validateBirthInfo]
  | some y =>
      simp only [validateBirthInfo, List.append_eq_nil, not_or]
      simp [List.append_eq_nil, not_or]
      constructor
      · rintro ⟨⟨-, ht⟩, hg, hc, h1, h2⟩
        exact ⟨⟨h1, h2⟩, ht, hg, hc⟩
      · rintro ⟨⟨h1, h2⟩, ht, hg, hc⟩
        refine ⟨⟨?_, ht⟩, hg, hc, h1, h2⟩
        rintro rfl
        exact absurd ht (by decide)

theorem validate_errors_length (b : BirthInfo) :
    (validateBirthInfo b).2.length = failedCheckCount b := by
  obtain ⟨od, t, g, c⟩ := b
  cases od <;>
    by_cases ht : t = "" ∨ regexTest t = false <;>
    by_cases hg : g = "" <;>
    by_cases hc : c = "" <;>
    simp [validateBirthInfo, failedCheckCount, ht, hg, hc] <;>
    split <;> simp

/-! ## Claims -/

/-- Claim C1 (code bug).  The solar-time corrector of astronomical-time.ts
does NOT compute the longitude offset as `(longitude - utcOffsetHours * 15) * 4`
minutes: it uses `standardLongitude = (timezone - 8) * 15`, which is 0° (not
120°E) for a UTC+8 location.  At the failing input longitude 116.4074°E,
UTC+8 (Beijing), the code yields +465.6296 minutes where the claimed formula
yields -14.3704 (≈ -14.4) minutes; at longitude 87.6°E, UTC+8 (Urumqi), the
code yields +350.4 minutes where the claimed formula yields exactly -129.6
minutes.  The repository's other implementation, calculateLongitudeOffset of
timezone-calculator.ts, agrees with the claimed formula for UTC+8
(-129.6 min = -7776000 ms at 87.6°E). -/
theorem c1_longitude_correction_bug :
    astroLongitudeCorrection (1164074/10000) 8 = 582037/1250
    ∧ specLongitudeOffset (1164074/10000) 8 = -17963/1250
    ∧ astroLongitudeCorrection (1164074/10000) 8
        ≠ specLongitudeOffset (1164074/10000) 8
    ∧ astroLongitudeCorrection (876/10) 8 = 1752/5
    ∧ specLongitudeOffset (876/10) 8 = -648/5
    ∧ tzcalcLongitudeOffset (876/10) = (-648/5) * 60 * 1000 := by
  norm_num [astroLongitudeCorrection, astroStandardLongitude,
    specLongitudeOffset, tzcalcLongitudeOffset]

/-- Claim C2, counterexample.  For the chart of four 甲子 pillars the five
buckets sum to 10, the four branches carry 4 hidden stems in total, and
10 ≠ 4.0 + 0.5 × 4: the claimed total is wrong. -/
theorem c2_sum_counterexample :
    sumElements (calculateFiveElements [⟨0, 0⟩, ⟨0, 0⟩, ⟨0, 0⟩, ⟨0, 0⟩]) = 10
    ∧ (hiddenStems 0).length + (hiddenStems 0).length
        + (hiddenStems 0).length + (hiddenStems 0).length = 4
    ∧ (10 : ℚ) ≠ 4 + (1/2) * 4 := by
  refine ⟨?_, by decide, by norm_num⟩
  simp only [calculateFiveElements, List.foldl_cons, List.foldl_nil]
  rw [sum_addPillar, sum_addPillar, sum_addPillar, sum_addPillar]
  have h : (hiddenStems (0 : Fin 12)).length = 1 := rfl
  rw [h]
  norm_num [zeroElements, sumElements]

/-- Claim C2, amended.  The tally does add weight 1.0 per pillar stem, 1.0
per pillar branch and 0.5 per hidden stem, but consequently the five buckets
of a four-pillar chart sum to 8.0 (not 4.0) plus 0.5 times the total hidden
stem count of the four branches. -/
theorem c2_sum_invariant (p1 p2 p3 p4 : Pillar) :
    sumElements (calculateFiveElements [p1, p2, p3, p4])
      = 8 + (((hiddenStems p1.branch).length + (hiddenStems p2.branch).length
          + (hiddenStems p3.branch).length + (hiddenStems p4.branch).length : ℕ) : ℚ) / 2 := by
  simp only [calculateFiveElements, List.foldl_cons, List.foldl_nil]
  rw [sum_addPillar, sum_addPillar, sum_addPillar, sum_addPillar]
  have hz : sumElements zeroElements = 0 := by norm_num [zeroElements, sumElements]
  rw [hz]
  push_cast
  ring

/-- Claim C3 (code bug).  CompleteBaZiCalculator.calculateDayPillar applied
to its own documented reference epoch 1900-01-01 (documented in the source as
庚子: stem index 6, branch index 0) returns 戊子 (stem index 4, branch 0), not
庚子, because of the `daysDiff - 12` correction.  The other implementation's
epoch 1900-01-31 (documented as 庚子) is reproduced exactly: stem 6, branch 0. -/
theorem c3_day_pillar_epoch :
    completeDayPillarIdx 1900 1 1 = (4, 0)
    ∧ completeDayPillarIdx 1900 1 1 ≠ (6, 0)
    ∧ simpleDayPillarIdx 1900 1 31 = (6, 0) := by decide

/-- Claim C4, counterexample.  In bazi-calculator.ts with day stem 甲 (index
0), the hour pillar at 23:30 (hour 23; minutes are ignored by the source) is
stem index 4, branch 0, while at 00:30 (hour 0) it is stem index 2, branch 0:
the two pillars are not identical, refuting the claim for this
implementation. -/
theorem c4_hour_counterexample :
    simpleHourPillarIdx 0 23 = (4, 0)
    ∧ simpleHourPillarIdx 0 0 = (2, 0)
    ∧ simpleHourPillarIdx 0 23 ≠ simpleHourPillarIdx 0 0 := by decide

/-- Claim C4, amended.  For every day stem, in the complete calculator 22:59
(hour 22) and 23:00 (hour 23) give different hour pillars and 23:30 and 00:30
give identical pillars (the midnight-spanning 子 branch is a single unit); in
bazi-calculator.ts 22:59 and 23:00 also differ and 23:30 and 00:30 share
branch 0, but their stems differ by two positions, so those two pillars are
not identical. -/
theorem c4_hour_boundary (d : Fin 10) :
    completeHourPillarIdx d 22 ≠ completeHourPillarIdx d 23
    ∧ completeHourPillarIdx d 23 = completeHourPillarIdx d 0
    ∧ simpleHourPillarIdx d 22 ≠ simpleHourPillarIdx d 23
    ∧ (simpleHourPillarIdx d 23).2 = (simpleHourPillarIdx d 0).2
    ∧ simpleHourPillarIdx d 23 ≠ simpleHourPillarIdx d 0 := by
  revert d; decide

/-- Claim C5, counterexample.  With day master 甲 (index 0) and the pillar
甲子, the branch character 子 is looked up in the stem-keyed TEN_GODS row and
hits no entry (JavaScript `undefined`): the classification of a pillar's
branch character is not one of the 10 labels. -/
theorem c5_branch_undefined_counterexample :
    tenGodsLookup 0 (Chr.branch 0) = none
    ∧ classifyPillarChars 0 ⟨0, 0⟩ = [some God.biJian, none, some God.zhengYin] := by
  decide

/-- Claim C5, amended.  For every day-master stem, every STEM character
(pillar stems and hidden stems) classifies to exactly one of the 10 labels,
and a stem classified against itself yields 比肩; but every BRANCH character
of a pillar is looked up in the stem-keyed 10×10 table and maps to an
undefined entry. -/
theorem c5_classification_totality :
    (∀ dm s : Fin 10, tenGodsLookup dm (.stem s) = some (tenGodsTable dm s))
    ∧ (∀ dm : Fin 10, tenGodsTable dm dm = God.biJian)
    ∧ (∀ (dm : Fin 10) (b : Fin 12), tenGodsLookup dm (.branch b) = none) := by
  refine ⟨fun dm s => rfl, by decide, fun dm b => rfl⟩

/-- Claim C6 (code bug).  The complete calculator's year pillar does
normalize its indices into [0,10) and [0,12) for every year, month and day;
but calculateYearPillar of bazi-calculator.ts has no such normalization: with
JavaScript's truncated `%`, year 1983 (inside the validator's accepted
1900-2100 range) produces stemIndex = branchIndex = -1, and
HEAVENLY_STEMS[-1] / EARTHLY_BRANCHES[-1] are undefined. -/
theorem c6_year_pillar_range :
    (∀ y m d : ℤ,
        0 ≤ (completeYearPillarIdx y m d).1 ∧ (completeYearPillarIdx y m d).1 < 10
        ∧ 0 ≤ (completeYearPillarIdx y m d).2 ∧ (completeYearPillarIdx y m d).2 < 12)
    ∧ simpleYearPillarIdx 1983 = (-1, -1)
    ∧ stemAt (simpleYearPillarIdx 1983).1 = none
    ∧ branchAt (simpleYearPillarIdx 1983).2 = none := by
  refine ⟨fun y m d => ?_, by decide, by decide, by decide⟩
  have h10 := jsMod_bounds (ganZhiYear y m d - 4) 10 (by norm_num)
  have h12 := jsMod_bounds (ganZhiYear y m d - 4) 12 (by norm_num)
  simp only [completeYearPillarIdx, normalize10, normalize12]
  split_ifs <;> omega

/-- Claim C7, counterexample.  calculateYearPillar of bazi-calculator.ts is a
function of the year alone: for the January date 1984-01-15 it returns year
1984's own pair 甲子 (0, 0), not the previous sexagenary year's pair 癸亥
(9, 11) that the complete calculator (and the claim) assign to that date. -/
theorem c7_january_counterexample :
    simpleYearPillarIdx 1984 = (0, 0)
    ∧ completeYearPillarIdx 1984 1 15 = (9, 11)
    ∧ ((0, 0) : ℤ × ℤ) ≠ ((9, 11) : ℤ × ℤ) := by decide

/-- Claim C7, amended.  In the complete calculator the sexagenary year
attribution is as claimed: every January date and every February date with
day < 4 is attributed to year Y-1, February dates from the 4th on and all
later months to Y; bazi-calculator.ts, by contrast, applies no cutover at
all (it reads only the year). -/
theorem c7_year_attribution (y d : ℤ) :
    ganZhiYear y 1 d = y - 1
    ∧ (d < 4 → ganZhiYear y 2 d = y - 1)
    ∧ (4 ≤ d → ganZhiYear y 2 d = y)
    ∧ (∀ m, 3 ≤ m → ganZhiYear y m d = y) := by
  refine ⟨?_, fun h => ?_, fun h => ?_, fun m hm => ?_⟩ <;>
    · unfold ganZhiYear
      split_ifs <;> omega

/-- Claim C7, witness for the amended theorem. -/
theorem c7_witness :
    ganZhiYear 1984 1 15 = 1983 ∧ ganZhiYear 1984 2 2 = 1983
    ∧ ganZhiYear 1984 2 4 = 1984 ∧ ganZhiYear 1984 5 15 = 1984 :=
  ⟨(c7_year_attribution 1984 15).1,
   (c7_year_attribution 1984 2).2.1 (by norm_num),
   (c7_year_attribution 1984 4).2.2.1 (by norm_num),
   (c7_year_attribution 1984 15).2.2.2 5 (by norm_num)⟩

/-- Claim C8, counterexample.  In bazi-calculator.ts the month branch is the
generic `(month + 1) % 12`: December (month 12) gets branch index 1 (丑), not
branch index 0 (子), refuting the claim for this implementation. -/
theorem c8_december_counterexample :
    simpleMonthBranchIdx 12 = 1 ∧ (1 : ℤ) ≠ 0 := by decide

/-- Claim C8, amended.  In the complete calculator the month branch does come
from the fixed table with December mapped to branch index 0 by its explicit
`12 → 子` entry (months 3-11 map to their own number); bazi-calculator.ts
instead uses the generic `(month + 1) % 12`, which sends December to branch
index 1. -/
theorem c8_month_branch (d : ℤ) :
    completeMonthZhiIdx 12 d = some 0
    ∧ (∀ m : ℤ, 3 ≤ m → m ≤ 11 → completeMonthZhiIdx m d = some m)
    ∧ simpleMonthBranchIdx 12 = 1 := by
  refine ⟨by norm_num [completeMonthZhiIdx, monthMapping], fun m h3 h11 => ?_, by decide⟩
  interval_cases m <;> norm_num [completeMonthZhiIdx, monthMapping]

/-- Claim C8, witness for the amended theorem. -/
theorem c8_witness :
    completeMonthZhiIdx 12 20 = some 0 ∧ completeMonthZhiIdx 7 20 = some 7
    ∧ simpleMonthBranchIdx 12 = 1 :=
  ⟨(c8_month_branch 20).1,
   (c8_month_branch 20).2.1 7 (by norm_num) (by norm_num),
   (c8_month_branch 20).2.2⟩

/-- Claim C9 (code bug).  When the corrected time crosses a calendar-day
boundary, calculateTrueSolarTime only increments or decrements the day
number: from January 31, 23:50 with a +30-minute total correction it returns
year 1900, month 1, day 32 — "January 32", not February 1.  No carry into
month or year exists in the source. -/
theorem c9_no_calendar_carry :
    applyTotalCorrection 1900 1 31 23 50 30
      = ⟨1900, 1, 32, 0, 20, 0⟩
    ∧ (applyTotalCorrection 1900 1 31 23 50 30).month ≠ 2
    ∧ (applyTotalCorrection 1900 1 31 23 50 30).day ≠ 1 := by
  have h : applyTotalCorrection 1900 1 31 23 50 30 = ⟨1900, 1, 32, 0, 20, 0⟩ := by
    have h24 : ratTrunc ((73 : ℚ) / 3) = 24 := by norm_num [ratTrunc]
    have h1460 : ratTrunc (1460 : ℚ) = 1460 := by norm_num [ratTrunc]
    simp only [applyTotalCorrection, jsFmod]
    norm_num [ratFloor, h24, h1460, TrueSolarDate.mk.injEq]
  refine ⟨h, ?_, ?_⟩ <;> rw [h] <;> norm_num

/-- Claim C10 (confirmed).  validateBirthInfo returns valid = true exactly
when a birth date is present with year in [1900, 2100], the birth time is a
1-or-2-digit hour 0-23 and a 2-digit minute 00-59 separated by a colon (the
source regex `([01]?[0-9]|2[0-3]):[0-5][0-9]` anchored), and gender and
calendar type are non-empty; otherwise it returns valid = false with a
non-empty error list holding one message per failed check. -/
theorem c10_validate (b : BirthInfo) :
    ((validateBirthInfo b).1 = true ↔
      ((∃ y, b.birthDate = some y ∧ 1900 ≤ y ∧ y ≤ 2100)
        ∧ claimTimeOk (b.birthTime.toList.map Char.toNat) = true
        ∧ b.gender ≠ "" ∧ b.calendarType ≠ ""))
    ∧ ((validateBirthInfo b).1 = false → (validateBirthInfo b).2 ≠ [])
    ∧ (validateBirthInfo b).2.length = failedCheckCount b := by
  refine ⟨?_, fun h hnil => ?_, validate_errors_length b⟩
  · rw [validate_valid_iff, regexTest_iff_claimTimeOk]
  · rw [validateBirthInfo_fst, hnil] at h
    exact absurd h (by decide)

/-- Claim C10, witness: a fully valid record validates to true, and a fully
invalid one yields a non-empty error list. -/
theorem c10_witness :
    (validateBirthInfo ⟨some 1990, "14:30", "male", "solar"⟩).1 = true
    ∧ (validateBirthInfo ⟨none, "", "", ""⟩).2 ≠ [] :=
  ⟨(c10_validate ⟨some 1990, "14:30", "male", "solar"⟩).1.mpr
      ⟨⟨1990, rfl, by norm_num, by norm_num⟩, by decide, by decide, by decide⟩,
   (c10_validate ⟨none, "", "", ""⟩).2.1 (by decide)⟩

end Bazi
